import Mathlib

/-!
Verification of `lightpath/ui/widgets.py` (cristinasewell/lightpath).

The file embeds the widget layer shallowly: Qt side effects become record
fields of an explicit widget state, Python exceptions become an explicit
`PyResult` outcome, and `logger` calls become an explicit log list returned
alongside each function's value.  The enumeration `DeviceState` and the
classifier `find_device_state` live in `lightpath.path`, which is not part
of the sources; they are modelled from the spec as marked below.
-/

namespace Lightpath

/-- An RGB color, embedding `QColor(r, g, b)`. -/
structure QColor where
  red : Nat
  green : Nat
  blue : Nat
deriving DecidableEq, Repr

/-- Modelled from the spec: the `DeviceState` enumeration of `lightpath.path`
(that module is not among the sources).  Ordinals per the spec data model:
`Removed(0)`, `Inserted(1)`, `Unknown(2)`, `Disconnected(3)`,
`PartiallyInserted(4, "Disconnected" label alias)`, `Error(5)`. -/
inductive DeviceState where
  | Removed
  | Inserted
  | Unknown
  | Disconnected
  | PartiallyInserted
  | Error
deriving DecidableEq, Repr, Fintype

/-- Modelled from the spec: the enum ordinal (Python `state.value`). -/
def DeviceState.value : DeviceState → Nat
  | .Removed => 0
  | .Inserted => 1
  | .Unknown => 2
  | .Disconnected => 3
  | .PartiallyInserted => 4
  | .Error => 5

/-- Modelled from the spec: the display name (Python `state.name`); the spec
gives `PartiallyInserted` the label alias `"Disconnected"`. -/
def DeviceState.name : DeviceState → String
  | .Removed => "Removed"
  | .Inserted => "Inserted"
  | .Unknown => "Unknown"
  | .Disconnected => "Disconnected"
  | .PartiallyInserted => "Disconnected"
  | .Error => "Error"

/-- Modelled from the spec: the state classifier of `lightpath.path`
(`classify(inserted, removed)`, spec 4.1), evaluated in priority order:
an unreadable/absent signal (`None`) gives `Disconnected`; then
both-true gives `Error`, true/false gives `Inserted`, false/true gives
`Removed`, and both-false gives `Unknown`. -/
def classify (inserted removed : Option Bool) : DeviceState :=
  match inserted, removed with
  | none, _ => .Disconnected
  | _, none => .Disconnected
  | some true, some true => .Error
  | some true, some false => .Inserted
  | some false, some true => .Removed
  | some false, some false => .Unknown

/-- A device as observed by the widget layer: its name, the two position
signals (`None` when unreadable or absent), the capability flags
(`hasattr(device, 'insert')` / `hasattr(device, 'remove')`), and the
optional hidden `_icon` attribute (`none` when reading it raises
`AttributeError`). -/
structure Device where
  name : String
  inserted : Option Bool
  removed : Option Bool
  has_insert : Bool
  has_remove : Bool
  icon : Option String

/-- Modelled from the spec: `find_device_state` of `lightpath.path` reads the
device's two signals and classifies them. -/
def find_device_state (d : Device) : DeviceState :=
  classify d.inserted d.removed

/-- `state_colors` of `widgets.py` (lines 17-22): the colors that correspond
to `DeviceState`, in ordinal order — Removed, Inserted, Unknown,
Disconnected, Disconnected (alias), Error. -/
def state_colors : List QColor :=
  [⟨124, 252, 0⟩,
   ⟨255, 0, 0⟩,
   ⟨255, 215, 0⟩,
   ⟨255, 215, 0⟩,
   ⟨255, 0, 255⟩,
   ⟨255, 0, 255⟩]

/-- `to_stylesheet_color` of `widgets.py`: renders a `QColor` as
`rgb(r, g, b)`. -/
def to_stylesheet_color (c : QColor) : String :=
  "rgb(" ++ toString c.red ++ ", " ++ toString c.green ++ ", "
    ++ toString c.blue ++ ")"

/-- The lookup `state_colors[state.value]` performed by `update_state`
(line 163); the bound proof shows the index is always in range. -/
def state_color (s : DeviceState) : QColor :=
  state_colors.get ⟨s.value, by cases s <;> decide⟩

/-- Levels of the `logging` calls appearing in `widgets.py`. -/
inductive LogLevel where
  | debug
  | info
  | error
deriving DecidableEq, Repr

/-- One emitted log record. -/
structure LogEntry where
  level : LogLevel
  msg : String
deriving DecidableEq, Repr

/-- `symbol_for_device` of `widgets.py` (lines 32-44): read the hidden
`_icon` attribute; on `AttributeError` log at debug level and fall back to
`"fa.square"`.  Returns the symbol together with the emitted log. -/
def symbol_for_device (d : Device) : String × List LogEntry :=
  match d.icon with
  | some symbol => (symbol, [])
  | none => ("fa.square", [⟨.debug, "No symbol found " ++ d.name⟩])

/-- The observable state of one row widget that `widgets.py` writes to:
the state label's text and stylesheet (with the RGB color the stylesheet
encodes kept explicit), the color last passed to the drawing's `setColor`,
the two action buttons' enabled flags, and the cached `last_state`
attribute (`none` before `update_state` has ever run). -/
structure WidgetState where
  state_label_text : String
  state_label_stylesheet : String
  state_label_color : QColor
  drawing_color : Option QColor
  insert_enabled : Bool
  remove_enabled : Bool
  last_state : Option DeviceState
deriving DecidableEq, Repr

/-- `InactiveRow.__init__` (lines 51-61): the state label is hard-coded to
`Disconnected` with stylesheet `QLabel \x7bcolor : rgb(255,0,255)\x7d`; the
drawing is created but `setColor` is not called.  The buttons come from the
designer `.ui` file (not among the sources); Qt widgets default to enabled. -/
def inactive_row_init (_d : Device) : WidgetState :=
  { state_label_text := "Disconnected"
    state_label_stylesheet := "QLabel \x7bcolor : rgb(255,0,255)\x7d"
    state_label_color := ⟨255, 0, 255⟩
    drawing_color := none
    insert_enabled := true
    remove_enabled := true
    last_state := none }

/-- `LightRow.update_state` (lines 149-171): classify the device, set the
label text to the state's name, color the label and the drawing with
`state_colors[state.value]`, and enable each button iff the state differs
from the button's target state and the device has the matching method. -/
def update_state (d : Device) (_w : WidgetState) : WidgetState :=
  let last := find_device_state d
  let color := state_color last
  let style_color := to_stylesheet_color color
  { state_label_text := last.name
    state_label_stylesheet := "QLabel \x7bcolor: " ++ style_color ++ "\x7d"
    state_label_color := color
    drawing_color := some color
    insert_enabled := decide (last ≠ DeviceState.Inserted) && d.has_insert
    remove_enabled := decide (last ≠ DeviceState.Removed) && d.has_remove
    last_state := some last }

/-- Outcome of a call into the device layer: a normal return or a raised
exception. -/
inductive PyResult (α : Type) where
  | ok (a : α)
  | exn (msg : String)
deriving DecidableEq, Repr

/-- `LightRow.remove` (lines 129-138): log the intent, call
`self.device.remove()`, and swallow any exception, logging it at error
level.  The first component is the handler's own outcome. -/
def LightRow.remove (d : Device) (call : PyResult Unit) :
    PyResult Unit × List LogEntry :=
  let intro := LogEntry.mk .info ("Removing device " ++ d.name ++ " ...")
  match call with
  | .ok _ => (.ok (), [intro])
  | .exn e => (.ok (), [intro, ⟨.error, e⟩])

/-- `LightRow.insert` (lines 140-147): log the intent, call
`self.device.insert()`, and swallow any exception, logging it at error
level. -/
def LightRow.insert (d : Device) (call : PyResult Unit) :
    PyResult Unit × List LogEntry :=
  let intro := LogEntry.mk .info ("Inserting device " ++ d.name ++ " ...")
  match call with
  | .ok _ => (.ok (), [intro])
  | .exn e => (.ok (), [intro, ⟨.error, e⟩])

/-- The result of running `LightRow.__init__`: the widget state it leaves,
how many times `device.subscribe` was invoked, the `run` flag passed,
which callback was registered, and the logs emitted. -/
structure LightRowInit where
  widget : WidgetState
  subscribe_attempts : Nat
  subscribe_run : Bool
  subscribe_callback : Device → WidgetState → WidgetState
  logs : List LogEntry

/-- `LightRow.__init__` (lines 114-127): after the `InactiveRow` setup it
subscribes `update_state` once with `run=False`; if `subscribe` raises, the
exception is swallowed and logged at error level and construction still
completes with the static display of `inactive_row_init`. -/
def LightRow.init (d : Device) (sub : PyResult Unit) : LightRowInit :=
  let w := inactive_row_init d
  match sub with
  | .ok _ =>
      { widget := w
        subscribe_attempts := 1
        subscribe_run := false
        subscribe_callback := update_state
        logs := [] }
  | .exn _ =>
      { widget := w
        subscribe_attempts := 1
        subscribe_run := false
        subscribe_callback := update_state
        logs := [⟨.error, "Widget is unable to subscribe to device " ++ d.name⟩] }

/-- The state of a `DeviceWidget` (lines 190-225): its fixed symbol name and
the pixmap currently shown (`none` until a `setColor` call succeeds). -/
structure DeviceWidget where
  symbol : String
  pixmap : Option (String × QColor)
deriving DecidableEq, Repr

/-- `DeviceWidget.__init__` (lines 202-212): the symbol comes from
`symbol_for_device`; no pixmap is created yet. -/
def DeviceWidget.init (d : Device) : DeviceWidget :=
  { symbol := (symbol_for_device d).1, pixmap := none }

/-- `DeviceWidget.setColor` (lines 214-225): build the icon for the stored
symbol via `qta.icon`; if that raises, log and return with the pixmap
untouched, else set the pixmap.  The parameter `loads` abstracts whether
`qtawesome` can load a given symbol name (deterministic in the name). -/
def DeviceWidget.setColor (loads : String → Bool) (w : DeviceWidget)
    (color : QColor) : DeviceWidget × List LogEntry :=
  if loads w.symbol then
    ({ w with pixmap := some (w.symbol, color) }, [])
  else
    (w, [⟨.error, "Unable to load icon " ++ w.symbol⟩])

/-- A sequence of `setColor` calls on a `DeviceWidget`, logs discarded. -/
def applySetColors (loads : String → Bool) (w : DeviceWidget) :
    List QColor → DeviceWidget
  | [] => w
  | c :: cs => applySetColors loads (DeviceWidget.setColor loads w c).1 cs

/-- A concrete device used by closed witnesses and counterexamples. -/
def dev0 : Device :=
  { name := "im1l0"
    inserted := some false
    removed := some true
    has_insert := true
    has_remove := true
    icon := none }

/-- Claim C1: the classifier satisfies the decision table — both signals
true gives `Error`, true/false gives `Inserted`, false/true gives
`Removed`, false/false gives `Unknown`, and either signal `None` gives
`Disconnected`; being a total function of the two well-typed signals, it
always returns a value and never fails. -/
theorem classify_decision_table :
    classify (some true) (some true) = DeviceState.Error
  ∧ classify (some true) (some false) = DeviceState.Inserted
  ∧ classify (some false) (some true) = DeviceState.Removed
  ∧ classify (some false) (some false) = DeviceState.Unknown
  ∧ (∀ x : Option Bool, classify none x = DeviceState.Disconnected
      ∧ classify x none = DeviceState.Disconnected) := by
  decide

/-- Claim C2: after `update_state`, the insert button is enabled iff the
device has an `insert` method and the state is not `Inserted`, and the
remove button is enabled iff it has a `remove` method and the state is not
`Removed`; with the insert capability absent the insert button is disabled
whatever the state. -/
theorem update_state_buttons (d : Device) (w : WidgetState) :
    (update_state d w).insert_enabled
      = (d.has_insert && decide (find_device_state d ≠ DeviceState.Inserted))
  ∧ (update_state d w).remove_enabled
      = (d.has_remove && decide (find_device_state d ≠ DeviceState.Removed))
  ∧ (update_state { d with has_insert := false } w).insert_enabled = false := by
  refine ⟨?_, ?_, ?_⟩ <;> simp [update_state, Bool.and_comm]

/-- Claim C3: `state_colors` has exactly as many entries as `DeviceState`
has variants (6 RGB triples, index-aligned to the ordinal), so the lookup
`state_colors[state.value]` done by `update_state` is in bounds for every
state and never raises. -/
theorem state_colors_cover_states :
    state_colors.length = 6
  ∧ Fintype.card DeviceState = 6
  ∧ (∀ s : DeviceState, s.value < state_colors.length)
  ∧ (∀ s : DeviceState, state_colors[s.value]? = some (state_color s)) := by
  decide

/-- Claim C4: `update_state` sets the label text to the classified state's
display name, and the display name `"Disconnected"` is shared by the
`Disconnected` and `PartiallyInserted` states. -/
theorem update_state_label (d : Device) (w : WidgetState) :
    (update_state d w).state_label_text = (find_device_state d).name
  ∧ DeviceState.Disconnected.name = "Disconnected"
  ∧ DeviceState.PartiallyInserted.name = "Disconnected" :=
  ⟨rfl, rfl, rfl⟩

/-- Claim C5 counterexample: at initial widget construction the state label
color is the hard-coded `rgb(255,0,255)`, which is not the color-table
entry at the `Disconnected` ordinal 3 — that entry is `rgb(255,215,0)`. -/
theorem inactive_row_color_counterexample :
    ¬ ((inactive_row_init dev0).state_label_color
        = state_color DeviceState.Disconnected) := by
  decide

/-- Claim C5 amended: at initial construction, before any subscription
notification, the widget shows the label `"Disconnected"` with the
hard-coded color `rgb(255,0,255)` — the color-table entry at the
`PartiallyInserted` ordinal 4, not the entry at the `Disconnected`
ordinal 3; the reflector `update_state` is not invoked (`last_state` is
still unset). -/
theorem inactive_row_init_display (d : Device) :
    (inactive_row_init d).state_label_text = "Disconnected"
  ∧ (inactive_row_init d).state_label_color = ⟨255, 0, 255⟩
  ∧ (inactive_row_init d).state_label_color
      = state_color DeviceState.PartiallyInserted
  ∧ (inactive_row_init d).last_state = none :=
  ⟨rfl, rfl, rfl, rfl⟩

/-- Claim C6: `symbol_for_device` returns the device's `_icon` attribute
verbatim when present (logging nothing) and the default `"fa.square"` when
absent, where the only log is at debug level; it is total and never
fails. -/
theorem symbol_for_device_spec (d : Device) (s : String) :
    (symbol_for_device { d with icon := some s }).1 = s
  ∧ (symbol_for_device { d with icon := some s }).2 = []
  ∧ (symbol_for_device { d with icon := none }).1 = "fa.square"
  ∧ (symbol_for_device { d with icon := none }).2
      = [⟨LogLevel.debug, "No symbol found " ++ d.name⟩] :=
  ⟨rfl, rfl, rfl, rfl⟩

/-- Claim C7: the `insert` and `remove` handlers return normally for every
outcome of the device action; when the action raises, the exception is
caught and logged at error level, never propagated to the caller. -/
theorem action_handlers_never_propagate (d : Device) (r : PyResult Unit)
    (e : String) :
    (LightRow.remove d r).1 = PyResult.ok ()
  ∧ (LightRow.insert d r).1 = PyResult.ok ()
  ∧ (LightRow.remove d (PyResult.exn e)).2
      = [⟨LogLevel.info, "Removing device " ++ d.name ++ " ..."⟩,
         ⟨LogLevel.error, e⟩]
  ∧ (LightRow.insert d (PyResult.exn e)).2
      = [⟨LogLevel.info, "Inserting device " ++ d.name ++ " ..."⟩,
         ⟨LogLevel.error, e⟩] := by
  refine ⟨?_, ?_, rfl, rfl⟩ <;> cases r <;> rfl

/-- Claim C8: `LightRow.__init__` registers `update_state` on the device
exactly once with `run=False`; a subscription failure is caught and logged
at error level, construction still completes, and the widget keeps the
static `Disconnected` display produced by `InactiveRow.__init__`. -/
theorem light_row_init_subscribes_once (d : Device) (r : PyResult Unit)
    (e : String) :
    (LightRow.init d r).subscribe_attempts = 1
  ∧ (LightRow.init d r).subscribe_run = false
  ∧ (LightRow.init d r).subscribe_callback = update_state
  ∧ (LightRow.init d r).widget = inactive_row_init d
  ∧ (LightRow.init d (PyResult.exn e)).logs
      = [⟨LogLevel.error, "Widget is unable to subscribe to device " ++ d.name⟩]
  ∧ (LightRow.init d (PyResult.exn e)).widget.state_label_text
      = "Disconnected" := by
  refine ⟨?_, ?_, ?_, ?_, rfl, rfl⟩ <;> cases r <;> rfl

/-- Claim C9: the reflection step is idempotent and deterministic — while
the device reports identical signals and capabilities, running
`update_state` twice leaves exactly the widget state (label text, color,
button enablement) that one run produces, independent of the prior widget
state. -/
theorem update_state_idempotent (d : Device) (w w' : WidgetState) :
    update_state d (update_state d w) = update_state d w
  ∧ update_state d w = update_state d w' :=
  ⟨rfl, rfl⟩

/-- For a symbol its loader rejects, `setColor` returns the widget
untouched together with the error log. -/
theorem setColor_of_load_failure (loads : String → Bool) (w : DeviceWidget)
    (c : QColor) (h : loads w.symbol = false) :
    DeviceWidget.setColor loads w c
      = (w, [⟨LogLevel.error, "Unable to load icon " ++ w.symbol⟩]) := by
  simp [DeviceWidget.setColor, h]

/-- For a symbol its loader rejects, any sequence of `setColor` calls
leaves the widget untouched. -/
theorem applySetColors_of_load_failure (loads : String → Bool)
    (w : DeviceWidget) (cs : List QColor) (h : loads w.symbol = false) :
    applySetColors loads w cs = w := by
  induction cs with
  | nil => rfl
  | cons c cs ih =>
      simp only [applySetColors, setColor_of_load_failure loads w c h]
      exact ih

/-- Claim C10: for a symbol name that fails to load, `setColor` logs the
failure and returns normally, and the widget shows no icon — starting from
construction, after any sequence of `setColor` calls the pixmap is still
unset, and one further call emits the error log and leaves it unset. -/
theorem setColor_failure_shows_no_icon (loads : String → Bool) (d : Device)
    (cs : List QColor) (c : QColor)
    (h : loads (DeviceWidget.init d).symbol = false) :
    (applySetColors loads (DeviceWidget.init d) cs).pixmap = none
  ∧ (DeviceWidget.setColor loads
      (applySetColors loads (DeviceWidget.init d) cs) c).1.pixmap = none
  ∧ (DeviceWidget.setColor loads
      (applySetColors loads (DeviceWidget.init d) cs) c).2
      = [⟨LogLevel.error,
          "Unable to load icon " ++ (DeviceWidget.init d).symbol⟩] := by
  rw [applySetColors_of_load_failure loads _ cs h]
  rw [setColor_of_load_failure loads _ c h]
  exact ⟨rfl, rfl, rfl⟩

/-- Witness for the claim-C10 theorem: a loader that rejects every symbol,
the concrete device `dev0`, one prior `setColor` call, and one further
call. -/
theorem setColor_failure_shows_no_icon_witness :
    (fun _ : String => false) (DeviceWidget.init dev0).symbol = false
  ∧ ((applySetColors (fun _ => false) (DeviceWidget.init dev0)
        [⟨1, 2, 3⟩]).pixmap = none
  ∧ (DeviceWidget.setColor (fun _ => false)
      (applySetColors (fun _ => false) (DeviceWidget.init dev0)
        [⟨1, 2, 3⟩]) ⟨4, 5, 6⟩).1.pixmap = none
  ∧ (DeviceWidget.setColor (fun _ => false)
      (applySetColors (fun _ => false) (DeviceWidget.init dev0)
        [⟨1, 2, 3⟩]) ⟨4, 5, 6⟩).2
      = [⟨LogLevel.error,
          "Unable to load icon " ++ (DeviceWidget.init dev0).symbol⟩]) :=
  ⟨rfl, setColor_failure_shows_no_icon (fun _ => false) dev0
    [⟨1, 2, 3⟩] ⟨4, 5, 6⟩ rfl⟩

end Lightpath
